import Mathlib

/-!
Verification of the `st_client` service layer of the tides-lab repository:
`src/apps/demo/st_client/src/services/agent_client.py` (class `AgentClient`)
and `src/apps/demo/st_client/src/services/mcp_client.py` (class `MCPClient`).

The Python code is embedded shallowly:

* JSON values (as produced by Python's `json.loads` / `response.json()`) are
  the inductive type `Json`; Python dicts with string keys are association
  lists in insertion order (every dict literal in the source has distinct
  keys, so first-match lookup agrees with Python).
* `json.loads` is an external library function, so it is a parameter
  `decode : String → Except String Json` of every function that uses it
  (`Except.error msg` models a raised `JSONDecodeError` with `str(e) = msg`).
* `requests.post` is a parameter `transport : HttpRequest → TransportResult`;
  `TransportResult.exn msg` models a raised exception with `str(e) = msg`.
  Each embedded method returns, besides its result, the list of requests it
  actually issued (so "no network call" is the statement that this list is
  empty) and the client object after the call (the source never assigns to
  `self`, so the embedding threads the state through unchanged).
* Python operations whose behaviour depends on the runtime type of a decoded
  JSON value (`x in v`, `v[key]`, `v.get`, iteration, `len`, slicing) are
  embedded as total functions returning `Except Json α`, where
  `Except.error v` models a `TypeError`/`AttributeError` raised on the
  offending value `v` and caught by the method's outer `except` handler.
  The text `str(e)` of such an exception is CPython runtime detail, so the
  outer handlers take it as a parameter `dynMsg : Json → String`.

The string literals below reproduce the bytes of the source file exactly:
the marker characters in the source are mojibake (UTF-8 emoji that were
re-encoded), written here with explicit `\u` escapes.
-/

set_option autoImplicit false

namespace Tides

/-- A JSON value as decoded by Python's `json` module.  Numbers are embedded
as integers; no number in the source or in the claims requires a float. -/
inductive Json where
  | null
  | bool (b : Bool)
  | num (n : Int)
  | str (s : String)
  | arr (elems : List Json)
  | obj (fields : List (String × Json))

/-- A Python dict with string keys, in insertion order. -/
abbrev Obj := List (String × Json)

/-- Key lookup in a dict (first match; all dicts built by the source have
distinct keys). -/
def lookupField : Obj → String → Option Json
  | [], _ => none
  | (k, v) :: rest, key => if k = key then some v else lookupField rest key

/-- Python `key in d` for a dict `d`. -/
def hasField (fs : Obj) (k : String) : Bool :=
  (lookupField fs k).isSome

/-- Field lookup on a `Json` value that is an object; `none` otherwise. -/
def Json.getField : Json → String → Option Json
  | .obj fs, k => lookupField fs k
  | _, _ => none

/-- Python `==` between a decoded JSON value and a string literal: true only
for an equal string (comparison with a value of another type is `False`,
not an error). -/
def Json.eqStr : Json → String → Bool
  | .str s, t => s = t
  | _, _ => false

/-- Python truthiness of an `Optional[str]` argument (used for
`if not api_key:`): `None` and the empty string are falsy. -/
def strFalsy : Option String → Bool
  | none => true
  | some s => s.data.isEmpty

/-- Python `x or d` for an optional string `x`: the default is taken when
`x` is `None` or empty. -/
def orDefault : Option String → String → String
  | none, d => d
  | some s, d => if s.data.isEmpty then d else s

/-! Character-level string operations.  Lean's own `String.startsWith`,
`String.splitOn`, `String.take` etc. run loops over byte positions that the
kernel cannot unfold, so the Python string operations the source uses are
implemented here directly on the character list of the string; this also
pins down Python's semantics exactly (e.g. `strip()` removes ASCII
whitespace, slicing counts code points). -/

/-- Whether `pat` is an initial segment of `cs`. -/
def leadsWith : List Char → List Char → Bool
  | [], _ => true
  | _ :: _, [] => false
  | p :: ps, c :: cs => p = c && leadsWith ps cs

/-- Whether `pat` occurs as a contiguous subsequence of the list. -/
def hasSub (pat : List Char) : List Char → Bool
  | [] => leadsWith pat []
  | c :: rest => leadsWith pat (c :: rest) || hasSub pat rest

/-- Python `s.startswith(pat)`. -/
def strStarts (s pat : String) : Bool :=
  leadsWith pat.data s.data

/-- Python `pat in s` for strings (used for the
`'text/event-stream' in content_type` test). -/
def strContains (s pat : String) : Bool :=
  hasSub pat.data s.data

/-- Python `s[n:]` (slicing counts code points). -/
def strDrop (s : String) (n : Nat) : String :=
  String.mk (s.data.drop n)

/-- Python `s[:n]`. -/
def strTake (s : String) (n : Nat) : String :=
  String.mk (s.data.take n)

/-- The characters Python's `str.strip()` removes. -/
def isPySpace (c : Char) : Bool :=
  c = ' ' || c = '\t' || c = '\n' || c = '\r' || c = '\x0b' || c = '\x0c'

/-- Python `s.strip()`. -/
def strStrip (s : String) : String :=
  String.mk (((s.data.dropWhile isPySpace).reverse.dropWhile isPySpace).reverse)

/-- Python `s.split('\n')`. -/
def splitLinesAux : List Char → List Char → List (List Char)
  | [], acc => [acc.reverse]
  | c :: rest, acc =>
    if c = '\n' then acc.reverse :: splitLinesAux rest []
    else splitLinesAux rest (c :: acc)

/-- Python `s.split('\n')`. -/
def splitLines (s : String) : List String :=
  (splitLinesAux s.data []).map String.mk

/-- Python truthiness of a decoded JSON value (used for
`if result.get("success")`). -/
def pyTruthy : Json → Bool
  | .null => false
  | .bool b => b
  | .num n => n != 0
  | .str s => !s.data.isEmpty
  | .arr xs => !xs.isEmpty
  | .obj fs => !fs.isEmpty

/-- Python `needle in v` for a decoded JSON value `v`: key test on a dict,
membership test on a list, substring test on a string; on a number, boolean
or `None`, Python raises `TypeError`, modelled as `Except.error v`. -/
def pyInStr (needle : String) : Json → Except Json Bool
  | .obj fs => .ok (hasField fs needle)
  | .arr xs => .ok (xs.any fun x => match x with | .str s => s = needle | _ => false)
  | .str s => .ok (strContains s needle)
  | v => .error v

/-- Python `v[key]` for a string `key`: lookup on a dict (`KeyError` when
absent), `TypeError` on any other value — both raises modelled as
`Except.error`. -/
def pyIndexStr (key : String) : Json → Except Json Json
  | .obj fs =>
    match lookupField fs key with
    | some v => .ok v
    | none => .error (.obj fs)
  | v => .error v

/-- Python `v.get(key, default)`: only dicts have `.get`; any other value
raises `AttributeError`, modelled as `Except.error v`. -/
def pyGet (key : String) (default : Json) : Json → Except Json Json
  | .obj fs => .ok ((lookupField fs key).getD default)
  | v => .error v

/-- Python iteration over a decoded JSON value: a list yields its elements, a
dict yields its keys, a string yields its characters as one-character
strings; any other value raises `TypeError`. -/
def pyIter : Json → Except Json (List Json)
  | .arr xs => .ok xs
  | .obj fs => .ok (fs.map fun kv => .str kv.1)
  | .str s => .ok (s.data.map fun c => .str (String.mk [c]))
  | v => .error v

/-- Python `len(v)`: defined on dicts, lists and strings; `TypeError`
otherwise. -/
def pyLen : Json → Except Json Nat
  | .arr xs => .ok xs.length
  | .obj fs => .ok fs.length
  | .str s => .ok s.data.length
  | v => .error v

/-- Python `v[:n]`: defined on lists and strings; `TypeError` otherwise. -/
def pySliceTo (n : Nat) : Json → Except Json Json
  | .arr xs => .ok (.arr (xs.take n))
  | .str s => .ok (.str (strTake s n))
  | v => .error v

/-- Python `str.title()`: the first cased character of each run of cased
characters is uppercased, the rest lowercased. -/
def pyTitle (s : String) : String :=
  String.mk (((s.data.foldl (fun (acc : List Char × Bool) c =>
    if c.isAlpha then
      ((if acc.2 then c.toLower else c.toUpper) :: acc.1, true)
    else
      (c :: acc.1, false)) ([], false)).1).reverse)

/-- One outbound HTTP POST as issued by `requests.post`. -/
structure HttpRequest where
  url : String
  body : Json
  headers : List (String × String)
  timeout : Nat

/-- The outcome of `requests.post`: a response, or a raised exception whose
`str(e)` is `msg`. -/
structure HttpResponse where
  status : Nat
  contentType : String
  text : String

inductive TransportResult where
  | response (r : HttpResponse)
  | exn (msg : String)

/-- The network, as seen by one method call. -/
abbrev Transport := HttpRequest → TransportResult

/-- `json.loads` / `response.json()`: the decoded value, or the message of
the raised `JSONDecodeError`. -/
abbrev Decode := String → Except String Json

/-! ## AgentClient (`agent_client.py`) -/

/-- The fields of an `AgentClient` instance that the embedded methods read
(`self.api_key` is set in `__init__` but never read by them, and
`self.environment` is display-only). -/
structure AgentClient where
  base_url : String
  timeout : Nat
  tides_id : String

/-- `AgentClient._get_endpoint`: every service routes to `/coordinator`. -/
def getEndpoint (_service : String) : String :=
  "/coordinator"

/-- The `{"error": ..., "details": ...}` dictionaries returned by
`AgentClient.call_service`. -/
def errObj (error details : String) : Json :=
  .obj [("error", .str error), ("details", .str details)]

/-- `AgentClient._build_payload`.  `Except.error msg` models the raised
`ValueError(msg)` (caught by `call_service`'s handler). -/
def buildPayload (service : String) (api_key : String) (tide_id : String)
    (kwargs : Obj) : Except String Obj :=
  let base_payload : Obj := [("api_key", .str api_key), ("tides_id", .str tide_id)]
  if service = "r2-test" then
    match lookupField kwargs "r2_path" with
    | none => .error "r2_path is required for r2-test service"
    | some p => .ok [("r2_test_path", p)]
  else if service = "insights" then
    let payload := base_payload ++ [("service", .str "insights")]
    .ok (match lookupField kwargs "timeframe" with
         | some t => payload ++ [("timeframe", t)]
         | none => payload)
  else if service = "optimize" then
    let payload := base_payload ++ [("service", .str "optimize")]
    .ok (match lookupField kwargs "timeframe" with
         | some _ => payload ++ [("preferences", .obj [("focus_time_blocks", .num 90)])]
         | none => payload)
  else if service = "questions" then
    .ok (base_payload ++ [("service", .str "questions"),
          ("question", (lookupField kwargs "question").getD
            (.str "How can I improve my productivity?"))])
  else if service = "preferences" then
    .ok (base_payload ++ [("service", .str "preferences")])
  else if service = "reports" then
    let payload := base_payload ++ [("service", .str "reports"), ("report_type", .str "summary")]
    .ok (match lookupField kwargs "timeframe" with
         | some t => payload ++ [("period", t)]
         | none => payload)
  else if service = "chat" then
    .ok (base_payload ++ [("service", .str "chat"),
          ("message", (lookupField kwargs "message").getD
            (.str "How productive was I today?"))])
  else
    .error ("Unknown service: " ++ service)

/-- The POST issued by `AgentClient.call_service`. -/
def agentRequest (c : AgentClient) (service : String) (payload : Obj) : HttpRequest :=
  { url := c.base_url ++ getEndpoint service
    body := .obj payload
    headers := [("Content-Type", "application/json")]
    timeout := c.timeout }

/-- `AgentClient.call_service`.  Returns the method's result, the list of
requests issued, and the client object after the call. -/
def callService (decode : Decode) (transport : Transport) (c : AgentClient)
    (service : String) (api_key : Option String) (tide_id : Option String)
    (kwargs : Obj) : Json × List HttpRequest × AgentClient :=
  if strFalsy api_key then
    (errObj "API key required" "Please provide an API key for authentication", [], c)
  else
    match buildPayload service (api_key.getD "") (orDefault tide_id c.tides_id) kwargs with
    | .error e => (errObj "Request failed" e, [], c)
    | .ok payload =>
      match transport (agentRequest c service payload) with
      | .exn e => (errObj "Request failed" e, [agentRequest c service payload], c)
      | .response r =>
        if r.status = 200 then
          match decode r.text with
          | .ok j => (j, [agentRequest c service payload], c)
          | .error e => (errObj "Request failed" e, [agentRequest c service payload], c)
        else
          (errObj ("HTTP " ++ toString r.status) r.text, [agentRequest c service payload], c)

/-! The `chat` method's response-extraction logic and the four formatter
helpers.  `pyStr : Json → String` is Python's `str()` as used inside
f-strings on decoded JSON values (its rendering of non-string values is
interpreter formatting, hence a parameter). -/

/-- `AgentClient._format_insights_response` (called with a dict). -/
def formatInsights (pyStr : Json → String) (data : Obj) : Except Json String := do
  let r0 := "ðŸ“Š **Productivity Insights**\n\n" ++
    "**Overall Score:** " ++
    pyStr ((lookupField data "productivity_score").getD (.str "N/A")) ++ "/100\n\n"
  let r1 ← match lookupField data "trends" with
    | none => pure r0
    | some trends => do
      let da ← pyGet "daily_average" (.str "N/A") trends
      let rA := r0 ++ "**Daily Average:** " ++ pyStr da ++ "\n"
      match trends with
      | .obj tfs =>
        match lookupField tfs "improvement_areas" with
        | none => pure rA
        | some areas => do
          let items ← pyIter areas
          pure (rA ++ "**Areas for Improvement:**\n" ++
            String.join (items.map fun a => "â€¢ " ++ pyStr a ++ "\n") ++ "\n")
      | _ => pure rA
  match lookupField data "recommendations" with
  | none => pure r1
  | some recs => do
    let items ← pyIter recs
    pure (r1 ++ "**Recommendations:**\n" ++
      String.join (items.enum.map fun p =>
        toString (p.1 + 1) ++ ". " ++ pyStr p.2 ++ "\n"))

/-- `AgentClient._format_optimize_response` (called with a dict). -/
def formatOptimize (pyStr : Json → String) (data : Obj) : Except Json String := do
  let r0 := "âš¡ **Schedule Optimization**\n\n"
  match lookupField data "recommendations" with
  | none => pure r0
  | some recs => do
    let items ← pyIter recs
    pure (r0 ++ "**Recommendations:**\n" ++
      String.join (items.enum.map fun p =>
        toString (p.1 + 1) ++ ". " ++ pyStr p.2 ++ "\n"))

/-- `AgentClient._format_reports_response`: appends `data.get("summary", ...)`
to the header with `+=`, which raises `TypeError` when the summary value is
not a string. -/
def formatReports (data : Obj) : Except Json String :=
  match (lookupField data "summary").getD (.str "No summary available") with
  | .str s => .ok ("ðŸ“‹ **Report Summary**\n\n" ++ s)
  | v => .error v

/-- `AgentClient._format_structured_response`.  `data` may be any decoded
value (one call site passes `result["data"]` unchecked) and `service` may be
any decoded value (it comes from `metadata.service`); `service.title()`
raises on a non-string. -/
def formatStructured (pyStr : Json → String) (data : Json) (service : Json) :
    Except Json String := do
  let svc ← match service with
    | .str s => Except.ok s
    | v => Except.error v
  let r0 := "ðŸ¤– **" ++ pyTitle svc ++ " Service Response**\n\n"
  let hasPs ← pyInStr "productivity_score" data
  let r1 ←
    if hasPs then do
      let v ← pyIndexStr "productivity_score" data
      pure (r0 ++ "**Productivity Score:** " ++ pyStr v ++ "/100\n")
    else pure r0
  let hasRecs ← pyInStr "recommendations" data
  let r2 ←
    if hasRecs then do
      let recsAll ← pyIndexStr "recommendations" data
      let recs ← pySliceTo 5 recsAll
      let items ← pyIter recs
      let base := r1 ++ "**Recommendations:**\n" ++
        String.join (items.enum.map fun p =>
          toString (p.1 + 1) ++ ". " ++ pyStr p.2 ++ "\n")
      let n ← pyLen recsAll
      if n > 5 then pure (base ++ "... and " ++ toString (n - 5) ++ " more\n")
      else pure base
    else pure r1
  let hasMsg ← pyInStr "message" data
  let r3 ←
    if hasMsg then do
      let v ← pyIndexStr "message" data
      pure (r2 ++ "\n**Message:** " ++ pyStr v ++ "\n")
    else pure r2
  let hasAns ← pyInStr "answer" data
  if hasAns then do
    let v ← pyIndexStr "answer" data
    pure (r3 ++ "\n**Answer:** " ++ pyStr v ++ "\n")
  else pure r3

/-- First hit of the backward-compatibility loop
`for field in ["response", "message", "text", "content"]`. -/
def firstField (fs : Obj) : List String → Option Json
  | [] => none
  | k :: rest =>
    match lookupField fs k with
    | some v => some v
    | none => firstField fs rest

/-- The response-extraction logic of `AgentClient.chat` (the body of
`if response.status_code == 200:` after `result = response.json()`).
`Except.error v` models an exception raised on the value `v`, caught by the
method's outer handler. -/
def chatExtract (pyStr : Json → String) (result : Json) : Except Json Json := do
  match result with
  | .obj fs =>
    match lookupField fs "data" with
    | some (.obj dataFs) => do
      let md := (lookupField fs "metadata").getD (.obj [])
      let service ← pyGet "service" (.str "unknown") md
      if service.eqStr "insights" && hasField dataFs "productivity_score" then
        Json.str <$> formatInsights pyStr dataFs
      else if service.eqStr "optimize" && hasField dataFs "recommendations" then
        Json.str <$> formatOptimize pyStr dataFs
      else if service.eqStr "reports" && hasField dataFs "summary" then
        Json.str <$> formatReports dataFs
      else
        match lookupField dataFs "message" with
        | some v => pure v
        | none =>
          match lookupField dataFs "response" with
          | some v => pure v
          | none =>
            match lookupField dataFs "answer" with
            | some v => pure v
            | none => Json.str <$> formatStructured pyStr (.obj dataFs) service
    | _ =>
      match firstField fs ["response", "message", "text", "content"] with
      | some v => pure v
      | none =>
        if pyTruthy ((lookupField fs "success").getD .null) && hasField fs "data" then
          Json.str <$> formatStructured pyStr ((lookupField fs "data").getD .null) (.str "unknown")
        else
          pure (.str ("ðŸ¤– Unexpected response format: " ++
            strTake (pyStr result) 200 ++ "..."))
  | v => pure (.str (pyStr v))

/-- The POST issued by `AgentClient.chat` (always to `/coordinator`). -/
def chatRequest (c : AgentClient) (message : String) (api_key : Option String)
    (user_id : Option String) (tide_id : Option String) (timestamp : String) :
    HttpRequest :=
  { url := c.base_url ++ "/coordinator"
    body := .obj
      [("message", .str message),
       ("userId", .str (orDefault user_id "demo_user")),
       ("api_key", .str (api_key.getD "")),
       ("tides_id", .str (orDefault tide_id c.tides_id)),
       ("timestamp", .str timestamp)]
    headers := [("Content-Type", "application/json")]
    timeout := c.timeout }

/-- `AgentClient.chat`.  `timestamp` stands for the
`datetime.now().isoformat()` string; `dynMsg v` is `str(e)` of an exception
raised on the decoded value `v` during extraction. -/
def chat (decode : Decode) (transport : Transport) (pyStr : Json → String)
    (dynMsg : Json → String) (c : AgentClient) (message : String)
    (api_key : Option String) (user_id : Option String) (tide_id : Option String)
    (timestamp : String) : Json × List HttpRequest × AgentClient :=
  if strFalsy api_key then
    (.str "âŒ API key required for chat", [], c)
  else
    match transport (chatRequest c message api_key user_id tide_id timestamp) with
    | .exn e =>
      (.str ("âŒ Connection failed: " ++ e),
       [chatRequest c message api_key user_id tide_id timestamp], c)
    | .response r =>
      if r.status = 200 then
        match decode r.text with
        | .error e =>
          (.str ("âŒ Connection failed: " ++ e),
           [chatRequest c message api_key user_id tide_id timestamp], c)
        | .ok result =>
          match chatExtract pyStr result with
          | .ok v => (v, [chatRequest c message api_key user_id tide_id timestamp], c)
          | .error v =>
            (.str ("âŒ Connection failed: " ++ dynMsg v),
             [chatRequest c message api_key user_id tide_id timestamp], c)
      else
        (.str ("âŒ Agent error (" ++ toString r.status ++ "): " ++ strTake r.text 200),
         [chatRequest c message api_key user_id tide_id timestamp], c)

/-! ## MCPClient (`mcp_client.py`) -/

/-- The fields of an `MCPClient` instance (`base_url` is hardcoded in
`__init__`; theorems below are stated for an arbitrary value). -/
structure MCPClient where
  environment : String
  base_url : String

/-- An error return of `MCPClient.execute_tool`
(`{"status": "error", "error": e, "tool": tool}`). -/
def toolErr (e : Json) (tool : String) : Json :=
  .obj [("status", .str "error"), ("error", e), ("tool", .str tool)]

/-- A success return of `MCPClient.execute_tool`
(`{"status": "success", "result": r, "tool": tool}`). -/
def toolOk (r : Json) (tool : String) : Json :=
  .obj [("status", .str "success"), ("result", r), ("tool", .str tool)]

/-- The "no valid events" return of `MCPClient.execute_tool`, carrying the
first 500 characters of the raw body. -/
def noEventsObj (tool : String) (text : String) : Json :=
  .obj [("status", .str "error"), ("error", .str "No valid events in stream"),
        ("tool", .str tool), ("raw_response", .str (strTake text 500))]

/-- The event-collection loop of `MCPClient.execute_tool`: over the lines of
the stripped body, decode the remainder of each `data: `-prefixed line,
silently dropping the lines whose JSON is malformed. -/
def eventsOf (decode : Decode) (text : String) : List Json :=
  (splitLines (strStrip text)).filterMap fun line =>
    if strStarts line "data: " then (decode (strDrop line 6)).toOption else none

/-- The JSON-RPC 2.0 POST issued by `MCPClient.execute_tool` (Bearer
authentication, fixed 30-second timeout). -/
def mcpRequest (m : MCPClient) (tool_name : String) (parameters : Option Obj)
    (api_key : Option String) : HttpRequest :=
  { url := m.base_url
    body := .obj
      [("jsonrpc", .str "2.0"), ("id", .num 1), ("method", .str "tools/call"),
       ("params", .obj [("name", .str tool_name),
                        ("arguments", .obj (parameters.getD []))])]
    headers := [("Content-Type", "application/json"),
                ("Accept", "application/json, text/event-stream"),
                ("Authorization", "Bearer " ++ api_key.getD "")]
    timeout := 30 }

/-- `MCPClient.execute_tool`.  Returns the method's result, the list of
requests issued, and the client object after the call.  `dynMsg v` is
`str(e)` of the `TypeError`/`AttributeError` raised on the decoded value `v`
when it is used with the wrong runtime type (e.g. `"result" in last_event`
for a non-dict last event); every such exception reaches the method's outer
`except` handler. -/
def executeTool (decode : Decode) (transport : Transport) (dynMsg : Json → String)
    (m : MCPClient) (tool_name : String) (parameters : Option Obj)
    (api_key : Option String) : Json × List HttpRequest × MCPClient :=
  if strFalsy api_key then
    (.obj [("status", .str "error"),
           ("error", .str "API key required for MCP tool execution"),
           ("tool", .str tool_name)], [], m)
  else
    match transport (mcpRequest m tool_name parameters api_key) with
    | .exn e =>
      (toolErr (.str ("Request failed: " ++ e)) tool_name,
       [mcpRequest m tool_name parameters api_key], m)
    | .response r =>
      if r.status = 200 then
        if strContains r.contentType "text/event-stream" then
          match (eventsOf decode r.text).getLast? with
          | some last =>
            (match pyInStr "result" last with
             | .error v => (toolErr (.str ("Request failed: " ++ dynMsg v)) tool_name, [mcpRequest m tool_name parameters api_key], m)
             | .ok true =>
               match pyIndexStr "result" last with
               | .ok v => (toolOk v tool_name, [mcpRequest m tool_name parameters api_key], m)
               | .error v => (toolErr (.str ("Request failed: " ++ dynMsg v)) tool_name, [mcpRequest m tool_name parameters api_key], m)
             | .ok false =>
               match pyInStr "error" last with
               | .error v => (toolErr (.str ("Request failed: " ++ dynMsg v)) tool_name, [mcpRequest m tool_name parameters api_key], m)
               | .ok true =>
                 match pyIndexStr "error" last with
                 | .ok e => (toolErr e tool_name, [mcpRequest m tool_name parameters api_key], m)
                 | .error v => (toolErr (.str ("Request failed: " ++ dynMsg v)) tool_name, [mcpRequest m tool_name parameters api_key], m)
               | .ok false => (noEventsObj tool_name r.text, [mcpRequest m tool_name parameters api_key], m))
          | none => (noEventsObj tool_name r.text, [mcpRequest m tool_name parameters api_key], m)
        else
          match decode r.text with
          | .error _ =>
            (toolErr (.str ("Invalid JSON response: " ++ strTake r.text 200)) tool_name,
             [mcpRequest m tool_name parameters api_key], m)
          | .ok result =>
            match pyInStr "error" result with
            | .error v => (toolErr (.str ("Request failed: " ++ dynMsg v)) tool_name, [mcpRequest m tool_name parameters api_key], m)
            | .ok true =>
              match pyIndexStr "error" result with
              | .ok e => (toolErr e tool_name, [mcpRequest m tool_name parameters api_key], m)
              | .error v => (toolErr (.str ("Request failed: " ++ dynMsg v)) tool_name, [mcpRequest m tool_name parameters api_key], m)
            | .ok false =>
              match pyGet "result" .null result with
              | .ok v => (toolOk v tool_name, [mcpRequest m tool_name parameters api_key], m)
              | .error v => (toolErr (.str ("Request failed: " ++ dynMsg v)) tool_name, [mcpRequest m tool_name parameters api_key], m)
      else
        (toolErr (.str ("HTTP " ++ toString r.status ++ ": " ++ r.text)) tool_name,
         [mcpRequest m tool_name parameters api_key], m)

/-! ## Concrete instances used by the witnesses and counterexamples -/

/-- A decoder rejecting every body (the `json.loads` error message shown is
the usual CPython one). -/
def decode0 : Decode := fun _ => .error "Expecting value: line 1 column 1 (char 0)"

/-- A transport on which every request raises. -/
def transport0 : Transport := fun _ => .exn "connection refused"

/-- A placeholder for `str(e)` of a runtime `TypeError`/`AttributeError`
(its text never matters to the theorems below). -/
def dynMsg0 : Json → String := fun _ => "TypeError"

/-- A placeholder for Python `str()` inside f-strings (never reached on the
paths the witnesses evaluate). -/
def pyStr0 : Json → String := fun _ => ""

/-- An `AgentClient` as built by `__init__` for the stable environment. -/
def client0 : AgentClient :=
  { base_url := "https://tides-agent-103.mpazbot.workers.dev"
    timeout := 30
    tides_id := "daily-tide-default" }

/-- An `MCPClient` as built by `__init__`. -/
def mcp0 : MCPClient :=
  { environment := "103 - Development"
    base_url := "https://tides-006.mpazbot.workers.dev/mcp" }

/-! ## C1 -/

/-- C1: for every service and tool, `call_service` with a missing or empty
`api_key` returns the validation failure whose message is exactly
"API key required", and `execute_tool` with a missing or empty key returns
the failure whose message is "API key required for MCP tool execution"
(which carries "API key required" as a prefix, witnessed by the append
decomposition in the last conjunct); neither method issues any network
request. -/
theorem missing_api_key_short_circuits
    (decode : Decode) (transport : Transport) (dynMsg : Json → String)
    (c : AgentClient) (m : MCPClient) (service tool : String)
    (tid : Option String) (kwargs : Obj) (params : Option Obj)
    (key : Option String) (h : strFalsy key = true) :
    callService decode transport c service key tid kwargs =
      (errObj "API key required" "Please provide an API key for authentication",
       [], c) ∧
    executeTool decode transport dynMsg m tool params key =
      (.obj [("status", .str "error"),
             ("error", .str "API key required for MCP tool execution"),
             ("tool", .str tool)], [], m) ∧
    "API key required for MCP tool execution" =
      "API key required" ++ " for MCP tool execution" := by
  refine ⟨?_, ?_, rfl⟩ <;> simp [callService, executeTool, h]

/-- C1 witness: the theorem applied at `api_key = None`. -/
theorem missing_api_key_short_circuits_witness :
    strFalsy none = true ∧
    (callService decode0 transport0 client0 "insights" none none [] =
      (errObj "API key required" "Please provide an API key for authentication",
       [], client0) ∧
    executeTool decode0 transport0 dynMsg0 mcp0 "tide_list" none none =
      (.obj [("status", .str "error"),
             ("error", .str "API key required for MCP tool execution"),
             ("tool", .str "tide_list")], [], mcp0) ∧
    "API key required for MCP tool execution" =
      "API key required" ++ " for MCP tool execution") :=
  ⟨rfl, missing_api_key_short_circuits decode0 transport0 dynMsg0 client0 mcp0
    "insights" "tide_list" none [] none none rfl⟩

/-! ## C2 -/

/-- A transport raising an exception whose `str(e)` happens to coincide with
the `ValueError` message of the missing-path case. -/
def transportRaiseR2 : Transport := fun _ =>
  .exn "r2_path is required for r2-test service"

/-- C2 counterexample: `call_service("r2-test", ...)` with valid credentials
and no path parameter does not return a distinct-shaped ValidationError: the
`ValueError` raised by `_build_payload` is caught by the same
`except Exception` handler as transport errors, so the result is the generic
`{"error": "Request failed", ...}` dictionary — byte-identical to the result
of a run in which the network call itself raised.  The claim's required
distinction between a validation failure and a transport failure does not
exist in the returned value. -/
theorem r2test_failure_counterexample :
    (callService decode0 transport0 client0 "r2-test" (some "key") none []).1 =
      (callService decode0 transportRaiseR2 client0 "insights" (some "key") none []).1 ∧
    (callService decode0 transport0 client0 "r2-test" (some "key") none []).1 =
      errObj "Request failed" "r2_path is required for r2-test service" :=
  ⟨rfl, rfl⟩

/-- C2 amended: `call_service("r2-test", ...)` with valid credentials and
params lacking `r2_path` returns, without issuing any network call, the
failure `{"error": "Request failed", "details": "r2_path is required for
r2-test service"}` — the generic caught-exception shape shared with
transport failures, not a distinct ValidationError shape. -/
theorem r2test_missing_path_no_network
    (decode : Decode) (transport : Transport) (c : AgentClient)
    (key tid : Option String) (kwargs : Obj)
    (hk : strFalsy key = false) (hp : lookupField kwargs "r2_path" = none) :
    callService decode transport c "r2-test" key tid kwargs =
      (errObj "Request failed" "r2_path is required for r2-test service", [], c) := by
  simp [callService, hk, buildPayload, hp]

/-- C2 witness: the amended theorem applied at concrete arguments. -/
theorem r2test_missing_path_no_network_witness :
    strFalsy (some "key") = false ∧
    lookupField [] "r2_path" = none ∧
    callService decode0 transport0 client0 "r2-test" (some "key") none [] =
      (errObj "Request failed" "r2_path is required for r2-test service",
       [], client0) :=
  ⟨rfl, rfl,
   r2test_missing_path_no_network decode0 transport0 client0 (some "key") none []
     rfl rfl⟩

/-! ## C3 -/

/-- C3: for each of the six known service names, `_build_payload` (the payload
builder `call_service` posts verbatim) succeeds for every non-empty key and
produces a payload carrying the `api_key` and `tides_id` fields with the
given values; for `r2-test` with a path supplied it produces exactly the
one-field payload `{"r2_test_path": path}` — no `api_key`, no `tides_id`. -/
theorem payload_credentials (key tid : String) (kwargs : Obj) :
    (∀ s, s ∈ ["insights", "optimize", "questions", "preferences", "reports", "chat"] →
      ∃ p, buildPayload s key tid kwargs = .ok p ∧
        lookupField p "api_key" = some (.str key) ∧
        lookupField p "tides_id" = some (.str tid)) ∧
    (∀ v, lookupField kwargs "r2_path" = some v →
      buildPayload "r2-test" key tid kwargs = .ok [("r2_test_path", v)]) := by
  constructor
  · intro s hs
    simp only [List.mem_cons, List.not_mem_nil, or_false] at hs
    rcases hs with rfl | rfl | rfl | rfl | rfl | rfl
    · cases h : lookupField kwargs "timeframe" with
      | none => exact ⟨[("api_key", .str key), ("tides_id", .str tid),
          ("service", .str "insights")], by simp [buildPayload, h], rfl, rfl⟩
      | some t => exact ⟨[("api_key", .str key), ("tides_id", .str tid),
          ("service", .str "insights"), ("timeframe", t)],
          by simp [buildPayload, h], rfl, rfl⟩
    · cases h : lookupField kwargs "timeframe" with
      | none => exact ⟨[("api_key", .str key), ("tides_id", .str tid),
          ("service", .str "optimize")], by simp [buildPayload, h], rfl, rfl⟩
      | some t => exact ⟨[("api_key", .str key), ("tides_id", .str tid),
          ("service", .str "optimize"),
          ("preferences", .obj [("focus_time_blocks", .num 90)])],
          by simp [buildPayload, h], rfl, rfl⟩
    · exact ⟨[("api_key", .str key), ("tides_id", .str tid),
        ("service", .str "questions"),
        ("question", (lookupField kwargs "question").getD
          (.str "How can I improve my productivity?"))],
        by simp [buildPayload], rfl, rfl⟩
    · exact ⟨[("api_key", .str key), ("tides_id", .str tid),
        ("service", .str "preferences")], by simp [buildPayload], rfl, rfl⟩
    · cases h : lookupField kwargs "timeframe" with
      | none => exact ⟨[("api_key", .str key), ("tides_id", .str tid),
          ("service", .str "reports"), ("report_type", .str "summary")],
          by simp [buildPayload, h], rfl, rfl⟩
      | some t => exact ⟨[("api_key", .str key), ("tides_id", .str tid),
          ("service", .str "reports"), ("report_type", .str "summary"),
          ("period", t)], by simp [buildPayload, h], rfl, rfl⟩
    · exact ⟨[("api_key", .str key), ("tides_id", .str tid),
        ("service", .str "chat"),
        ("message", (lookupField kwargs "message").getD
          (.str "How productive was I today?"))],
        by simp [buildPayload], rfl, rfl⟩
  · intro v hv
    simp [buildPayload, hv]

/-- C3 witness: the theorem applied at service "insights" and at a concrete
path parameter. -/
theorem payload_credentials_witness :
    ("insights" ∈ ["insights", "optimize", "questions", "preferences", "reports", "chat"]) ∧
    (∃ p, buildPayload "insights" "k" "t" [("r2_path", Json.str "p")] = .ok p ∧
      lookupField p "api_key" = some (.str "k") ∧
      lookupField p "tides_id" = some (.str "t")) ∧
    lookupField [("r2_path", Json.str "p")] "r2_path" = some (Json.str "p") ∧
    buildPayload "r2-test" "k" "t" [("r2_path", Json.str "p")] =
      .ok [("r2_test_path", Json.str "p")] :=
  ⟨by simp,
   (payload_credentials "k" "t" [("r2_path", Json.str "p")]).1 "insights" (by simp),
   rfl,
   (payload_credentials "k" "t" [("r2_path", Json.str "p")]).2 (Json.str "p") rfl⟩

/-! ## C4 -/

/-- C4: the payload for "insights" passes a supplied timeframe through
unchanged; the payload for "optimize" never carries a `timeframe` field and,
when a timeframe is supplied, carries the fixed preference
`{"focus_time_blocks": 90}` instead; the payload for "reports" carries the
supplied timeframe value under `period` and never under `timeframe`. -/
theorem timeframe_handling (key tid : String) (kwargs : Obj) :
    (∀ t, lookupField kwargs "timeframe" = some t →
      ∃ p, buildPayload "insights" key tid kwargs = .ok p ∧
        lookupField p "timeframe" = some t) ∧
    (∃ p, buildPayload "optimize" key tid kwargs = .ok p ∧
      hasField p "timeframe" = false ∧
      (∀ t, lookupField kwargs "timeframe" = some t →
        lookupField p "preferences" =
          some (.obj [("focus_time_blocks", .num 90)]))) ∧
    (∀ t, lookupField kwargs "timeframe" = some t →
      ∃ p, buildPayload "reports" key tid kwargs = .ok p ∧
        lookupField p "period" = some t ∧ hasField p "timeframe" = false) := by
  refine ⟨?_, ?_, ?_⟩
  · intro t ht
    exact ⟨[("api_key", .str key), ("tides_id", .str tid),
      ("service", .str "insights"), ("timeframe", t)],
      by simp [buildPayload, ht], by simp [lookupField]⟩
  · cases h : lookupField kwargs "timeframe" with
    | none => exact ⟨[("api_key", .str key), ("tides_id", .str tid),
        ("service", .str "optimize")], by simp [buildPayload, h],
        by simp [hasField, lookupField],
        fun t ht => by simp at ht⟩
    | some t0 => exact ⟨[("api_key", .str key), ("tides_id", .str tid),
        ("service", .str "optimize"),
        ("preferences", .obj [("focus_time_blocks", .num 90)])],
        by simp [buildPayload, h], by simp [hasField, lookupField],
        fun t ht => by simp [lookupField]⟩
  · intro t ht
    exact ⟨[("api_key", .str key), ("tides_id", .str tid),
      ("service", .str "reports"), ("report_type", .str "summary"),
      ("period", t)], by simp [buildPayload, ht], by simp [lookupField],
      by simp [hasField, lookupField]⟩

/-- C4 witness: the theorem applied at the timeframe value "week". -/
theorem timeframe_handling_witness :
    lookupField [("timeframe", Json.str "week")] "timeframe" =
      some (Json.str "week") ∧
    (∃ p, buildPayload "insights" "k" "t" [("timeframe", Json.str "week")] = .ok p ∧
      lookupField p "timeframe" = some (Json.str "week")) ∧
    (∃ p, buildPayload "optimize" "k" "t" [("timeframe", Json.str "week")] = .ok p ∧
      hasField p "timeframe" = false ∧
      (∀ t, lookupField [("timeframe", Json.str "week")] "timeframe" = some t →
        lookupField p "preferences" =
          some (.obj [("focus_time_blocks", .num 90)]))) ∧
    (∃ p, buildPayload "reports" "k" "t" [("timeframe", Json.str "week")] = .ok p ∧
      lookupField p "period" = some (Json.str "week") ∧
      hasField p "timeframe" = false) :=
  ⟨rfl,
   (timeframe_handling "k" "t" [("timeframe", Json.str "week")]).1
     (Json.str "week") rfl,
   (timeframe_handling "k" "t" [("timeframe", Json.str "week")]).2.1,
   (timeframe_handling "k" "t" [("timeframe", Json.str "week")]).2.2
     (Json.str "week") rfl⟩

/-! ## C5 -/

/-- C5: whenever the coordinator answers with a status other than 200,
`call_service` returns the failure `{"error": "HTTP <status>",
"details": <body text>}`. -/
theorem non200_http_error
    (decode : Decode) (transport : Transport) (c : AgentClient)
    (service : String) (key tid : Option String) (kwargs : Obj) (r : HttpResponse)
    (hk : strFalsy key = false)
    (hb : ∃ p, buildPayload service (key.getD "") (orDefault tid c.tides_id) kwargs = .ok p)
    (ht : ∀ q, transport q = .response r) (hs : r.status ≠ 200) :
    (callService decode transport c service key tid kwargs).1 =
      errObj ("HTTP " ++ toString r.status) r.text := by
  obtain ⟨p, hp⟩ := hb
  simp [callService, hk, hp, ht, hs]

/-- A mocked coordinator returning HTTP 500 with body "boom". -/
def transport500 : Transport := fun _ =>
  .response { status := 500, contentType := "application/json", text := "boom" }

/-! ## C6 -/

/-- A decoder that accepts exactly the JSON texts appearing in the mocked
event streams below. -/
def decodeEx : Decode := fun s =>
  if s = "\x7b\"result\": \x7b\"ok\": true\x7d\x7d" then
    .ok (.obj [("result", .obj [("ok", .bool true)])])
  else if s = "5" then .ok (.num 5)
  else .error "Expecting value: line 1 column 1 (char 0)"

/-- A mocked event-stream body of two `data:` lines, the first malformed
JSON, the second `{"result": {"ok": true}}`. -/
def streamBody : String :=
  "data: \x7bnotjson\ndata: \x7b\"result\": \x7b\"ok\": true\x7d\x7d"

/-- A transport answering every request with the mocked event stream. -/
def transportStream : Transport := fun _ =>
  .response { status := 200, contentType := "text/event-stream", text := streamBody }

/-- A transport answering every request with an event stream whose only data
line carries the JSON number 5. -/
def transportNum : Transport := fun _ =>
  .response { status := 200, contentType := "text/event-stream", text := "data: 5" }

/-- C6 counterexample: for the HTTP-200 event-stream body "data: 5" the
decoded events are `[5]`, and 5 is a last event carrying neither a `result`
nor an `error` field, so the claim demands the "no valid events" failure;
but the code evaluates `"result" in 5`, which raises `TypeError`, and the
outer handler returns the generic caught-exception failure instead. -/
theorem stream_nonobject_last_counterexample :
    eventsOf decodeEx "data: 5" = [.num 5] ∧
    (executeTool decodeEx transportNum dynMsg0 mcp0 "tide_list" none (some "k")).1 =
      toolErr (.str "Request failed: TypeError") "tide_list" ∧
    (executeTool decodeEx transportNum dynMsg0 mcp0 "tide_list" none (some "k")).1 ≠
      noEventsObj "tide_list" "data: 5" := by
  refine ⟨rfl, rfl, ?_⟩
  intro h
  rw [show (executeTool decodeEx transportNum dynMsg0 mcp0 "tide_list" none
      (some "k")).1 = toolErr (.str "Request failed: TypeError") "tide_list"
    from rfl] at h
  simp [toolErr, noEventsObj] at h

/-- C6 amended: on an HTTP-200 event-stream response, only `data: `-prefixed
lines are decoded (the collection `eventsOf` silently skips malformed lines)
and only the last decoded event decides the outcome.  When the last event is
a JSON object, a `result` field yields success with its value, otherwise an
`error` field yields failure with its value, and neither field — or an empty
event list — yields the "No valid events in stream" failure with the
truncated raw body.  When the last event is `null`, a boolean or a number,
the membership test raises and the outcome is instead the generic
caught-exception failure. -/
theorem stream_last_event_decides
    (decode : Decode) (transport : Transport) (dynMsg : Json → String)
    (m : MCPClient) (tool : String) (params : Option Obj) (key : Option String)
    (r : HttpResponse) (hk : strFalsy key = false)
    (ht : ∀ q, transport q = .response r) (hs : r.status = 200)
    (hc : strContains r.contentType "text/event-stream" = true) :
    ((eventsOf decode r.text).getLast? = none →
      (executeTool decode transport dynMsg m tool params key).1 =
        noEventsObj tool r.text) ∧
    (∀ lfs, (eventsOf decode r.text).getLast? = some (.obj lfs) →
      (∀ v, lookupField lfs "result" = some v →
        (executeTool decode transport dynMsg m tool params key).1 = toolOk v tool) ∧
      (∀ e, lookupField lfs "result" = none → lookupField lfs "error" = some e →
        (executeTool decode transport dynMsg m tool params key).1 = toolErr e tool) ∧
      (lookupField lfs "result" = none → lookupField lfs "error" = none →
        (executeTool decode transport dynMsg m tool params key).1 =
          noEventsObj tool r.text)) ∧
    (∀ last, (eventsOf decode r.text).getLast? = some last →
      (last = .null ∨ (∃ b, last = .bool b) ∨ (∃ n, last = .num n)) →
      (executeTool decode transport dynMsg m tool params key).1 =
        toolErr (.str ("Request failed: " ++ dynMsg last)) tool) := by
  refine ⟨?_, ?_, ?_⟩
  · intro he
    simp [executeTool, hk, ht, hs, hc, he]
  · intro lfs he
    refine ⟨?_, ?_, ?_⟩
    · intro v hv
      simp [executeTool, hk, ht, hs, hc, he, pyInStr, pyIndexStr, hasField, hv]
    · intro e hv he2
      simp [executeTool, hk, ht, hs, hc, he, pyInStr, pyIndexStr, hasField, hv, he2]
    · intro hv he2
      simp [executeTool, hk, ht, hs, hc, he, pyInStr, hasField, hv, he2]
  · rintro last he (rfl | ⟨b, rfl⟩ | ⟨n, rfl⟩) <;>
      simp [executeTool, hk, ht, hs, hc, he, pyInStr]

/-- C6 witness: the amended theorem applied to the mocked two-line stream;
the malformed first line is skipped and the second decides the outcome, a
success carrying `{"ok": true}`. -/
theorem stream_last_event_decides_witness :
    strFalsy (some "k") = false ∧
    eventsOf decodeEx streamBody =
      [.obj [("result", .obj [("ok", .bool true)])]] ∧
    (eventsOf decodeEx streamBody).getLast? =
      some (.obj [("result", .obj [("ok", .bool true)])]) ∧
    (executeTool decodeEx transportStream dynMsg0 mcp0 "tide_list" none
        (some "k")).1 =
      toolOk (.obj [("ok", .bool true)]) "tide_list" :=
  ⟨rfl, rfl, rfl,
   (((stream_last_event_decides decodeEx transportStream dynMsg0 mcp0 "tide_list"
        none (some "k")
        { status := 200, contentType := "text/event-stream", text := streamBody }
        rfl (fun _ => rfl) rfl rfl).2.1
      [("result", .obj [("ok", .bool true)])] rfl).1
     (.obj [("ok", .bool true)]) rfl)⟩

/-! ## C7 -/

/-- A decoder that accepts exactly the non-stream bodies mocked below. -/
def decodeC7 : Decode := fun s =>
  if s = "[]" then .ok (.arr [])
  else if s = "\x7b\"result\": 7\x7d" then .ok (.obj [("result", .num 7)])
  else .error "Expecting value: line 1 column 1 (char 0)"

/-- A transport answering every request with HTTP 200, JSON content type and
body "[]". -/
def transportArr : Transport := fun _ =>
  .response { status := 200, contentType := "application/json", text := "[]" }

/-- A transport answering every request with HTTP 200, JSON content type and
body `{"result": 7}`. -/
def transportObj7 : Transport := fun _ =>
  .response { status := 200, contentType := "application/json",
              text := "\x7b\"result\": 7\x7d" }

/-- C7 counterexample: the HTTP-200 non-stream body "[]" decodes to a JSON
document with no error field, so the claim demands a success carrying an
absent result field; but `[].get("result")` raises `AttributeError` and the
outer handler returns a failure (status "error") instead. -/
theorem nonstream_nonobject_counterexample :
    (executeTool decodeC7 transportArr dynMsg0 mcp0 "tide_list" none (some "k")).1 =
      toolErr (.str "Request failed: TypeError") "tide_list" ∧
    (executeTool decodeC7 transportArr dynMsg0 mcp0 "tide_list" none
        (some "k")).1.getField "status" ≠ some (.str "success") := by
  refine ⟨rfl, ?_⟩
  intro h
  rw [show (executeTool decodeC7 transportArr dynMsg0 mcp0 "tide_list" none
      (some "k")).1 = toolErr (.str "Request failed: TypeError") "tide_list"
    from rfl] at h
  simp [toolErr, Json.getField, lookupField] at h

/-- C7 amended: on an HTTP-200 response whose content type is not an event
stream the body is parsed as a single JSON document.  When it decodes to a
JSON object, an `error` field yields a failure carrying that payload and
otherwise the result is a success carrying the `result` field (null when
absent); when the body is not valid JSON the failure cites the first 200
characters of the raw body; when the document is valid JSON but not an
object, the runtime raises while inspecting it and the outcome is a
caught-exception failure (status "error"), never a success. -/
theorem nonstream_json_document
    (decode : Decode) (transport : Transport) (dynMsg : Json → String)
    (m : MCPClient) (tool : String) (params : Option Obj) (key : Option String)
    (r : HttpResponse) (hk : strFalsy key = false)
    (ht : ∀ q, transport q = .response r) (hs : r.status = 200)
    (hc : strContains r.contentType "text/event-stream" = false) :
    (∀ e, decode r.text = .error e →
      (executeTool decode transport dynMsg m tool params key).1 =
        toolErr (.str ("Invalid JSON response: " ++ strTake r.text 200)) tool) ∧
    (∀ fs, decode r.text = .ok (.obj fs) →
      (∀ e, lookupField fs "error" = some e →
        (executeTool decode transport dynMsg m tool params key).1 = toolErr e tool) ∧
      (lookupField fs "error" = none →
        (executeTool decode transport dynMsg m tool params key).1 =
          toolOk ((lookupField fs "result").getD .null) tool)) ∧
    (∀ j, decode r.text = .ok j → (∀ fs, j ≠ .obj fs) →
      (executeTool decode transport dynMsg m tool params key).1.getField "status" =
        some (.str "error")) := by
  refine ⟨?_, ?_, ?_⟩
  · intro e he
    simp [executeTool, hk, ht, hs, hc, he]
  · intro fs hfs
    refine ⟨?_, ?_⟩
    · intro e he
      simp [executeTool, hk, ht, hs, hc, hfs, pyInStr, pyIndexStr, hasField, he]
    · intro he
      simp [executeTool, hk, ht, hs, hc, hfs, pyInStr, pyGet, hasField, he]
  · intro j hj hno
    cases j with
    | obj fs => exact absurd rfl (hno fs)
    | null =>
      simp [executeTool, hk, ht, hs, hc, hj, pyInStr, toolErr, Json.getField,
        lookupField]
    | bool b =>
      simp [executeTool, hk, ht, hs, hc, hj, pyInStr, toolErr, Json.getField,
        lookupField]
    | num n =>
      simp [executeTool, hk, ht, hs, hc, hj, pyInStr, toolErr, Json.getField,
        lookupField]
    | str s =>
      cases hpc : strContains s "error" <;>
        simp [executeTool, hk, ht, hs, hc, hj, pyInStr, pyIndexStr, pyGet, hpc,
          toolErr, Json.getField, lookupField]
    | arr xs =>
      cases hpc : xs.any (fun x => match x with | .str s => s = "error" | _ => false) <;>
        simp [executeTool, hk, ht, hs, hc, hj, pyInStr, pyIndexStr, pyGet, hpc,
          toolErr, Json.getField, lookupField]

/-- C7 witness: the amended theorem applied to the mocked body
`{"result": 7}`: no error field, so the call succeeds with 7. -/
theorem nonstream_json_document_witness :
    strFalsy (some "k") = false ∧
    decodeC7 "\x7b\"result\": 7\x7d" = .ok (.obj [("result", .num 7)]) ∧
    lookupField [("result", Json.num 7)] "error" = none ∧
    (executeTool decodeC7 transportObj7 dynMsg0 mcp0 "tide_list" none (some "k")).1 =
      toolOk (.num 7) "tide_list" :=
  ⟨rfl, rfl, rfl,
   ((nonstream_json_document decodeC7 transportObj7 dynMsg0 mcp0 "tide_list" none
      (some "k")
      { status := 200, contentType := "application/json",
        text := "\x7b\"result\": 7\x7d" }
      rfl (fun _ => rfl) rfl rfl).2.1 [("result", .num 7)] rfl).2 rfl⟩

/-- C5 witness: the theorem applied to the mocked HTTP 500 / "boom"
response. -/
theorem non200_http_error_witness :
    strFalsy (some "k") = false ∧
    (500 : Nat) ≠ 200 ∧
    (callService decode0 transport500 client0 "insights" (some "k") none []).1 =
      errObj "HTTP 500" "boom" :=
  ⟨rfl, by decide,
   non200_http_error decode0 transport500 client0 "insights" (some "k") none []
     { status := 500, contentType := "application/json", text := "boom" }
     rfl ⟨_, rfl⟩ (fun q => rfl) (by decide)⟩

/-! ## C8 -/

/-- C8: on an HTTP-200 coordinator reply, the chat extraction returns the
`message` field of `data` — for the body
`{"success": true, "data": {"message": "hi"}}` the string "hi" — and every
field access on the way is optional: when `data` is a dict none of whose
recognized fields are present (and no metadata names a service), the result
is the generic formatted dump headed "Unknown Service Response", not a
failure. -/
theorem chat_message_extraction
    (decode : Decode) (transport : Transport) (pyStr dynMsg : Json → String)
    (c : AgentClient) (msg : String) (key uid tid : Option String) (ts : String)
    (r : HttpResponse) (hk : strFalsy key = false)
    (ht : ∀ q, transport q = .response r) (hs : r.status = 200) :
    (decode r.text =
        .ok (.obj [("success", .bool true), ("data", .obj [("message", .str "hi")])]) →
      (chat decode transport pyStr dynMsg c msg key uid tid ts).1 = .str "hi") ∧
    (∀ fs dataFs, decode r.text = .ok (.obj fs) →
      lookupField fs "data" = some (.obj dataFs) →
      lookupField fs "metadata" = none →
      lookupField dataFs "message" = none →
      lookupField dataFs "response" = none →
      lookupField dataFs "answer" = none →
      lookupField dataFs "productivity_score" = none →
      lookupField dataFs "recommendations" = none →
      (chat decode transport pyStr dynMsg c msg key uid tid ts).1 =
        .str "ðŸ¤– **Unknown Service Response**\n\n") := by
  constructor
  · intro hd
    simp [chat, hk, ht, hs, hd, chatExtract, pyGet, lookupField, Json.eqStr,
      hasField]
  · intro fs dataFs hd h1 h2 h3 h4 h5 h6 h7
    have hx : chatExtract pyStr (.obj fs) =
        .ok (.str ("ðŸ¤– **" ++ pyTitle "unknown" ++ " Service Response**\n\n")) := by
      simp [chatExtract, formatStructured, h1, h2, h3, h4, h5, h6, h7, pyGet,
        pyInStr, hasField, lookupField, Json.eqStr, bind, Except.bind, pure,
        Except.pure, Functor.map, Except.map]
    have hgoal : (chat decode transport pyStr dynMsg c msg key uid tid ts).1 =
        .str ("ðŸ¤– **" ++ pyTitle "unknown" ++ " Service Response**\n\n") := by
      simp [chat, hk, ht, hs, hd, hx]
    rw [hgoal]
    rfl

/-- A decoder and transport mocking the coordinator's
`{"success": true, "data": {"message": "hi"}}` reply. -/
def bodyHi : String := "\x7b\"success\": true, \"data\": \x7b\"message\": \"hi\"\x7d\x7d"

def decodeHi : Decode := fun s =>
  if s = bodyHi then
    .ok (.obj [("success", .bool true), ("data", .obj [("message", .str "hi")])])
  else .error "Expecting value: line 1 column 1 (char 0)"

def transportHi : Transport := fun _ =>
  .response { status := 200, contentType := "application/json", text := bodyHi }

/-- A decoder and transport mocking a reply whose `data` dict is empty. -/
def bodyEmptyData : String := "\x7b\"success\": true, \"data\": \x7b\x7d\x7d"

def decodeEmptyData : Decode := fun s =>
  if s = bodyEmptyData then .ok (.obj [("success", .bool true), ("data", .obj [])])
  else .error "Expecting value: line 1 column 1 (char 0)"

def transportEmptyData : Transport := fun _ =>
  .response { status := 200, contentType := "application/json", text := bodyEmptyData }

/-- C8 witness: the theorem applied to the mocked "hi" reply and to the
mocked empty-`data` reply (every recognized field missing). -/
theorem chat_message_extraction_witness :
    strFalsy (some "k") = false ∧
    (chat decodeHi transportHi pyStr0 dynMsg0 client0 "hello" (some "k") none none
        "2025-01-01T00:00:00").1 = .str "hi" ∧
    (chat decodeEmptyData transportEmptyData pyStr0 dynMsg0 client0 "hello"
        (some "k") none none "2025-01-01T00:00:00").1 =
      .str "ðŸ¤– **Unknown Service Response**\n\n" :=
  ⟨rfl,
   (chat_message_extraction decodeHi transportHi pyStr0 dynMsg0 client0 "hello"
      (some "k") none none "2025-01-01T00:00:00"
      { status := 200, contentType := "application/json", text := bodyHi }
      rfl (fun _ => rfl) rfl).1 rfl,
   (chat_message_extraction decodeEmptyData transportEmptyData pyStr0 dynMsg0
      client0 "hello" (some "k") none none "2025-01-01T00:00:00"
      { status := 200, contentType := "application/json", text := bodyEmptyData }
      rfl (fun _ => rfl) rfl).2 [("success", .bool true), ("data", .obj [])] []
      rfl rfl rfl rfl rfl rfl rfl rfl⟩

/-! ## C9 -/

/-- C9: `call_service` and `execute_tool` return the client object unchanged
(the source never assigns to `self`), so a second invocation with identical
arguments — run on the client state left by the first — produces the same
normalized result as the first against the same deterministic backend. -/
theorem invocations_idempotent
    (decode : Decode) (transport : Transport) (dynMsg : Json → String)
    (c : AgentClient) (m : MCPClient) (service tool : String)
    (key tid : Option String) (kwargs : Obj) (params : Option Obj) :
    (callService decode transport c service key tid kwargs).2.2 = c ∧
    (callService decode transport
        (callService decode transport c service key tid kwargs).2.2
        service key tid kwargs).1 =
      (callService decode transport c service key tid kwargs).1 ∧
    (executeTool decode transport dynMsg m tool params key).2.2 = m ∧
    (executeTool decode transport dynMsg
        (executeTool decode transport dynMsg m tool params key).2.2
        tool params key).1 =
      (executeTool decode transport dynMsg m tool params key).1 := by
  have h1 : (callService decode transport c service key tid kwargs).2.2 = c := by
    unfold callService
    repeat' split
    all_goals rfl
  have h2 : (executeTool decode transport dynMsg m tool params key).2.2 = m := by
    unfold executeTool
    repeat' split
    all_goals rfl
  exact ⟨h1, by rw [h1], h2, by rw [h2]⟩

/-! ## C10 -/

/-- C10: whatever the backend does — success, RPC error, HTTP error, decode
failure, transport exception, or a runtime type error on a non-dict decoded
value — the dictionary returned by `execute_tool` always carries the tool
name under "tool" and a "status" field equal to "success" or "error". -/
theorem executeTool_result_invariant
    (decode : Decode) (transport : Transport) (dynMsg : Json → String)
    (m : MCPClient) (tool : String) (params : Option Obj) (key : Option String) :
    (executeTool decode transport dynMsg m tool params key).1.getField "tool" =
      some (.str tool) ∧
    ((executeTool decode transport dynMsg m tool params key).1.getField "status" =
        some (.str "success") ∨
     (executeTool decode transport dynMsg m tool params key).1.getField "status" =
        some (.str "error")) := by
  constructor
  · unfold executeTool
    repeat' split
    all_goals simp [toolOk, toolErr, noEventsObj, Json.getField, lookupField]
  · unfold executeTool
    repeat' split
    all_goals simp [toolOk, toolErr, noEventsObj, Json.getField, lookupField]

end Tides
